import Mathlib

/-!
Verification of the swap orchestration core of this repository against its
natural-language specification.  Pure functions of the source are embedded as
executable Lean definitions; machine numbers are modelled as `Nat`/`Int`
(the source computes token conversions with `BigInt`, i.e. unbounded
integers).  Fallible code is embedded with `Except`.
-/

/-! ## ERC20WalletProvider token amount conversion

Embeds `formatTokenAmount` and `normalizeTokenAmount` of
`src/lib/wallet/providers/ERC20WalletProvider.ts`.  The source computes
`BigInt(10) ** BigInt(Math.abs(this.token.decimals - 8))` and multiplies or
divides with `BigInt` arithmetic; non-negative amounts are modelled as `Nat`
(BigInt division truncates, which on non-negative operands is `Nat` division).
-/

/-- The `Math.abs(decimals - 8)` of the source. -/
def absDiff8 (decimals : Nat) : Nat := ((decimals : Int) - 8).natAbs

/-- Embeds `ERC20WalletProvider.formatTokenAmount`: converts an amount in the 10^-8
reference precision to the token's own precision. -/
def formatTokenAmount (decimals : Nat) (amount : Nat) : Nat :=
  if decimals = 8 then
    amount
  else
    let exponent := 10 ^ absDiff8 decimals
    if decimals > 8 then amount * exponent else amount / exponent

/-- Embeds `ERC20WalletProvider.normalizeTokenAmount`: converts an amount in the
token's own precision back to the 10^-8 reference precision. -/
def normalizeTokenAmount (decimals : Nat) (amount : Nat) : Nat :=
  if decimals = 8 then
    amount
  else
    let exponent := 10 ^ absDiff8 decimals
    if decimals > 8 then amount / exponent else amount * exponent

/-! ## String containment

The source classifies errors with JavaScript's `String.prototype.includes`;
we embed it as a simple executable substring test on the character list of a
`String`. -/

/-- Whether `needle` is a prefix of `hay` (character lists). -/
def listPrefixOf : List Char → List Char → Bool
  | [], _ => true
  | _ :: _, [] => false
  | a :: as, b :: bs => a = b && listPrefixOf as bs

/-- Whether `needle` occurs contiguously inside `hay` (character lists). -/
def listContains (needle hay : List Char) : Bool :=
  match hay with
  | [] => needle.isEmpty
  | _ :: t => listPrefixOf needle hay || listContains needle t

/-- JavaScript `hay.includes(needle)`. -/
def strContains (hay needle : String) : Bool := listContains needle.data hay.data

/-! ## Channel Nursery

The `ChannelNursery` implementation (`lib/swap/ChannelNursery.ts`) is not
among the staged source files; only its test suite is.  Its settlement
retry loop, `openChannel` error classification and `settleChannel`
idempotency are modelled from the specification (§4.8), and the concrete
error strings and retry traces of the test suite are used as witnesses. -/

/-- State of the per-swap settlement retry bookkeeping: the stored retry
counter (`settleRetries.get(swap.id)`), the number of settlement attempts
made so far, and whether the loop has terminated. -/
structure SettleState where
  retries : Option Nat
  attempts : Nat
  stopped : Bool
deriving DecidableEq, Repr

/-- State before the first settlement attempt: no stored counter. -/
def settleInit : SettleState := { retries := none, attempts := 0, stopped := false }

/-- Modelled from the spec: `ChannelNursery.settleChannelWrapper` is not in
the staged sources.  Spec §4.8: "retries use an exponential schedule
(1×, 2×, 4× of `base-retry`, max 4 attempts) tracked per swap-id".  One
settlement attempt under the `channelSettle` lock (the lock serialises the
attempts, so the model is sequential): on success the swap-id's counter is
cleared and the loop stops; on failure a missing counter is stored as 1 and
a retry scheduled, a stored counter `c < 4` is doubled and a retry scheduled
at `c * base-retry`, and a stored counter that reached 4 is cleared with no
further retry. -/
def settleStep (success : Bool) (s : SettleState) : SettleState :=
  if s.stopped then s
  else if success then { retries := none, attempts := s.attempts + 1, stopped := true }
  else
    match s.retries with
    | none => { retries := some 1, attempts := s.attempts + 1, stopped := false }
    | some c =>
      if 4 ≤ c then { retries := none, attempts := s.attempts + 1, stopped := true }
      else { retries := some (c * 2), attempts := s.attempts + 1, stopped := false }

/-- Runs the settlement retry loop on the given sequence of per-attempt
settlement results. -/
def settleRun (results : List Bool) : SettleState :=
  results.foldl (fun s r => settleStep r s) settleInit

/-- Trace of one `openChannel` orchestration: attempts made, calls to
`connectByPublicKey`, whether the `ChannelCreation` was marked `Abandoned`,
and whether a channel open succeeded. -/
structure OpenTrace where
  attempts : Nat
  connects : Nat
  abandoned : Bool
  succeeded : Bool
deriving DecidableEq, Repr

/-- Modelled from the spec: the error classification of
`ChannelNursery.openChannel` (§4.8): an error whose string matches "wallet
is fully synced" or "Synchronizing blockchain" means a node is syncing. -/
def syncError (e : String) : Bool :=
  strContains e "wallet is fully synced" || strContains e "Synchronizing blockchain"

/-- Modelled from the spec: an `openChannel` error matching
"peer … is not online" (§4.8). -/
def peerOfflineError (e : String) : Bool := strContains e "is not online"

/-- Modelled from the spec: `ChannelNursery.openChannel` is not in the
staged sources.  Spec §4.8 step 4: a syncing error is retried with backoff;
a "peer … is not online" error triggers one `connectByPublicKey` attempt
followed by a retry; any other error terminates the open attempt and marks
the `ChannelCreation` `Abandoned`.  The argument lists the outcome of each
attempt (`none` = the open succeeded, `some e` = it threw `e`). -/
def runOpenChannel : List (Option String) → OpenTrace
  | [] => { attempts := 0, connects := 0, abandoned := false, succeeded := false }
  | none :: _ => { attempts := 1, connects := 0, abandoned := false, succeeded := true }
  | some e :: rest =>
    if syncError e then
      let t := runOpenChannel rest
      { t with attempts := t.attempts + 1 }
    else if peerOfflineError e then
      let t := runOpenChannel rest
      { t with attempts := t.attempts + 1, connects := t.connects + 1 }
    else
      { attempts := 1, connects := 0, abandoned := true, succeeded := false }

/-- Outcome of one `ChannelNursery.settleChannel` call: its boolean return
value, whether `ChannelCreationRepository.setSettled` was called, and how
many times the invoice payment was invoked. -/
structure SettleOutcome where
  returned : Bool
  markedSettled : Bool
  payInvocations : Nat
deriving DecidableEq, Repr

/-- Modelled from the spec: `ChannelNursery.settleChannel` is not in the
staged sources.  Spec §4.8: settlement pays the swap's invoice through the
opened channel; "invoice is already paid" is treated as success (the
`ChannelCreation` is marked `Settled`, no second payment is invoked); any
other payment error makes the call return `false` without marking
`Settled`.  The argument is the payment outcome (`none` = paid, `some e` =
payment threw `e`). -/
def settleChannel (payResult : Option String) : SettleOutcome :=
  match payResult with
  | none => { returned := true, markedSettled := true, payInvocations := 1 }
  | some e =>
    if strContains e "invoice is already paid" then
      { returned := true, markedSettled := true, payInvocations := 1 }
    else
      { returned := false, markedSettled := false, payInvocations := 1 }

/-! ## Reverse routing hints engine

Embeds `ReverseRoutingHints` of `src/lib/wallet/Errors.ts` (`getHints`,
`encodeRoutingHint`, `verifyBolt12Invoice`, `checkDescriptionHash`,
`verifyAddressSignature`).  Public keys, signatures and hashes are opaque
(`Nat`); the cryptographic primitives (`verifySchnorr` of bitcoinjs
`ECPair`, `crypto.sha256` of the UTF-8 bytes of the address) and the
collaborators (`Wallet.decodeAddress`, `PaymentRequestUtils.encodeParams`,
the miner fee table, `getSwapMemo`, `getHexString`) are fields of an
environment record, so every theorem quantifies over their behaviour. -/

/-- A BOLT11 routing hop hint as handed to the invoice constructor. -/
structure HopHint where
  nodeId : String
  chanId : Nat
  feeBaseMsat : Nat
  cltvExpiryDelta : Nat
  feeProportionalMillionths : Nat
deriving DecidableEq, Repr

/-- The `DecodedInvoice` of the sidecar, restricted to the fields `getHints`
reads: the BOLT12 description and the optional payee public key. -/
structure DecodedInvoice where
  description : String
  payee : Option Nat
deriving DecidableEq, Repr

/-- The result record of `getHints` (`SwapHints` in the source). -/
structure SwapHints where
  invoiceMemo : Option String
  invoiceDescriptionHash : Option (List Nat)
  receivedAmount : Int
  bip21Params : Option String
  routingHint : Option (List (List HopHint))
deriving DecidableEq, Repr

/-- The errors `getHints` can throw (`Errors.INVALID_ADDRESS`,
`INVALID_ADDRESS_SIGNATURE`, `PAYEE_MISSING_FROM_INVOICE`,
`INVALID_DESCRIPTION_HASH`). -/
inductive HintsError where
  | invalidAddress
  | invalidAddressSignature
  | payeeMissingFromInvoice
  | invalidDescriptionHash
deriving DecidableEq, Repr

/-- The argument record of `getHints`. -/
structure GetHintsArgs where
  memo : Option String
  userAddress : Option String
  version : Nat
  onchainAmount : Int
  claimPublicKey : Option Nat
  descriptionHash : Option (List Nat)
  userAddressSignature : Option Nat
  invoice : Option DecodedInvoice
deriving DecidableEq, Repr

/-- The collaborators of `ReverseRoutingHints`, abstracted.
`schnorrVerify pk h sig` is `ECPair.fromPublicKey(pk).verifySchnorr(h, sig)`;
`sha256utf8 a` is `crypto.sha256(Buffer.from(a, 'utf-8'))`;
`decodeAddressOk symbol a` is whether the sending currency's wallet decodes
`a` without throwing; `claimMinerFee symbol version` is
`rateProvider.feeProvider.minerFees.get(symbol)![version].reverse.claim`.
`encodeParams` is modelled from the spec: `PaymentRequestUtils` is not in
the staged sources, and spec §4.5 has `bip21-params` produced whenever a
valid user refund-address with a valid signature is provided, so it is
total. -/
structure HintsEnv where
  schnorrVerify : Nat → Nat → Nat → Bool
  sha256utf8 : String → Nat
  decodeAddressOk : String → String → Bool
  encodeParams : String → Int → Option String → String
  claimMinerFee : String → Nat → Int
  getSwapMemo : String → String
  getHexString : Nat → String

/-- Modelled from the spec: `transactionToLndScid` of
`lib/lightning/ChannelUtils.ts` is not in the staged sources.  Spec §6:
"Short-channel-id derived from (block=542409, tx=1308, vout=0) packed per
BOLT11" — the 64-bit packing `block << 40 | txIndex << 16 | outputIndex`. -/
def transactionToLndScid (block txIndex outputIndex : Nat) : Nat :=
  block * 2 ^ 40 + txIndex * 2 ^ 16 + outputIndex

/-- Embeds `ReverseRoutingHints.routingHintChanId`: the constant synthetic
channel-id `transactionToLndScid(542409, 1308, 0)`. -/
def routingHintChanId : Nat := transactionToLndScid 542409 1308 0

/-- Embeds `ReverseRoutingHints.verifyAddressSignature`: Schnorr verification of
the signature over the SHA256 of the UTF-8 bytes of the address. -/
def verifyAddressSignature (env : HintsEnv) (publicKey : Nat) (userAddress : String)
    (userAddressSignature : Nat) : Bool :=
  env.schnorrVerify publicKey (env.sha256utf8 userAddress) userAddressSignature

/-- Embeds `ReverseRoutingHints.checkDescriptionHash`: absent hashes pass through;
a present hash must be exactly 32 bytes or `INVALID_DESCRIPTION_HASH` is
thrown. -/
def checkDescriptionHash : Option (List Nat) → Except HintsError (Option (List Nat))
  | none => Except.ok none
  | some descriptionHash =>
    if descriptionHash.length ≠ 32 then Except.error HintsError.invalidDescriptionHash
    else Except.ok (some descriptionHash)

/-- The single synthetic hop hint of `encodeRoutingHint`: node-id is the
hex of the claim public key, channel-id the constant
`routingHintChanId`, `feeBaseMsat: 0`, `cltvExpiryDelta: 81`,
`feeProportionalMillionths: 21`. -/
def syntheticHopHint (env : HintsEnv) (cpk : Nat) : HopHint :=
  { nodeId := env.getHexString cpk, chanId := routingHintChanId,
    feeBaseMsat := 0, cltvExpiryDelta := 81, feeProportionalMillionths := 21 }

/-- Embeds `ReverseRoutingHints.encodeRoutingHint`: without a claim public key no
hint is produced (and nothing is verified); with one, an invalid address
signature throws `INVALID_ADDRESS_SIGNATURE`, a valid one yields the single
synthetic hop hint. -/
def encodeRoutingHint (env : HintsEnv) (claimPublicKey : Option Nat) (userAddress : String)
    (userAddressSignature : Nat) : Except HintsError (Option (List (List HopHint))) :=
  match claimPublicKey with
  | none => Except.ok none
  | some cpk =>
    if verifyAddressSignature env cpk userAddress userAddressSignature then
      Except.ok (some [[syntheticHopHint env cpk]])
    else Except.error HintsError.invalidAddressSignature

/-- Embeds `ReverseRoutingHints.verifyBolt12Invoice`: a missing payee key throws
`PAYEE_MISSING_FROM_INVOICE`; an address signature that does not verify
against the payee key throws `INVALID_ADDRESS_SIGNATURE`. -/
def verifyBolt12Invoice (env : HintsEnv) (decoded : DecodedInvoice) (userAddress : String)
    (userAddressSignature : Nat) : Except HintsError Unit :=
  match decoded.payee with
  | none => Except.error HintsError.payeeMissingFromInvoice
  | some payee =>
    if verifyAddressSignature env payee userAddress userAddressSignature then Except.ok ()
    else Except.error HintsError.invalidAddressSignature

/-- Embeds `ReverseRoutingHints.getHints`, following the source's control flow:
description-hash check (BOLT11 only), memo selection, received amount,
early return without `bip21Params` when address or signature is absent,
address decoding, BOLT12 payee verification or BOLT11 routing-hint
encoding. -/
def getHints (env : HintsEnv) (symbol : String) (args : GetHintsArgs) :
    Except HintsError SwapHints :=
  let descHashRes : Except HintsError (Option (List Nat)) :=
    match args.invoice with
    | none => checkDescriptionHash args.descriptionHash
    | some _ => Except.ok none
  match descHashRes with
  | Except.error e => Except.error e
  | Except.ok invoiceDescriptionHash =>
    let invoiceMemo : Option String :=
      match args.invoice with
      | none => some (args.memo.getD (env.getSwapMemo symbol))
      | some inv => some inv.description
    let receivedAmount : Int := args.onchainAmount - env.claimMinerFee symbol args.version
    match args.userAddress, args.userAddressSignature with
    | some userAddress, some sig =>
      if env.decodeAddressOk symbol userAddress then
        let bip21Params := env.encodeParams symbol receivedAmount args.memo
        let hintRes : Except HintsError (Option (List (List HopHint))) :=
          match args.invoice with
          | some inv =>
            match verifyBolt12Invoice env inv userAddress sig with
            | Except.error e => Except.error e
            | Except.ok _ => Except.ok none
          | none => encodeRoutingHint env args.claimPublicKey userAddress sig
        match hintRes with
        | Except.error e => Except.error e
        | Except.ok routingHint =>
          Except.ok
            { invoiceMemo := invoiceMemo,
              invoiceDescriptionHash := invoiceDescriptionHash,
              receivedAmount := receivedAmount,
              bip21Params := some bip21Params,
              routingHint := routingHint }
      else Except.error HintsError.invalidAddress
    | _, _ =>
      Except.ok
        { invoiceMemo := invoiceMemo,
          invoiceDescriptionHash := invoiceDescriptionHash,
          receivedAmount := receivedAmount,
          bip21Params := none,
          routingHint := none }

/-- The `bip21Params` of a `getHints` result, `none` when the call threw. -/
def bip21Of (r : Except HintsError SwapHints) : Option String :=
  match r with
  | Except.ok h => h.bip21Params
  | Except.error _ => none

/-- The condition under which `getHints` actually returns `bip21Params`,
stated on the request: address and signature both supplied, the address
decodable, a present BOLT11 description hash of 32 bytes, and the
verification performed on this path succeeding — against the payee key for
BOLT12, against the claim public key for BOLT11 when one is supplied, and
vacuously for BOLT11 without a claim public key. -/
def bip21Granted (env : HintsEnv) (symbol : String) (args : GetHintsArgs) : Bool :=
  match args.userAddress, args.userAddressSignature with
  | some userAddress, some sig =>
    env.decodeAddressOk symbol userAddress &&
      match args.invoice with
      | some inv =>
        (match inv.payee with
          | some payee => verifyAddressSignature env payee userAddress sig
          | none => false)
      | none =>
        (match args.descriptionHash with
          | none => true
          | some b => b.length = 32) &&
          (match args.claimPublicKey with
            | some cpk => verifyAddressSignature env cpk userAddress sig
            | none => true)
  | _, _ => false

/-! ## LND wallet provider fee selection

Embeds the fee-rate selection of
`src/lib/wallet/providers/LndWalletProvider.ts`: `getFeePerVbyte` is
`satPerVbyte || (await this.chainClient.estimateFee())` — JavaScript `||`
falls through to the chain client's estimate exactly when `satPerVbyte` is
`undefined` or `0` (the falsy numbers of the integer domain) — and
`sendToAddress`/`sweepWallet` pass its result to LND. -/

/-- Embeds `LndWalletProvider.getFeePerVbyte`: `satPerVbyte || estimateFee()`. -/
def getFeePerVbyte (satPerVbyte : Option Int) (estimateFee : Int) : Int :=
  match satPerVbyte with
  | none => estimateFee
  | some v => if v = 0 then estimateFee else v

/-- The arguments of the `lndClient.sendCoins` call made by
`LndWalletProvider.sendToAddress`. -/
structure SendCoinsCall where
  address : String
  amount : Int
  feeRate : Int
  label : String
deriving DecidableEq, Repr

/-- The arguments of the `lndClient.sweepWallet` call made by
`LndWalletProvider.sweepWallet`. -/
structure SweepWalletCall where
  address : String
  feeRate : Int
  label : String
deriving DecidableEq, Repr

/-- Embeds `LndWalletProvider.sendToAddress`, restricted to the `sendCoins` call it
makes (`estimateFee` is the chain client's estimate). -/
def sendToAddress (estimateFee : Int) (address : String) (amount : Int)
    (satPerVbyte : Option Int) (label : String) : SendCoinsCall :=
  { address, amount, feeRate := getFeePerVbyte satPerVbyte estimateFee, label }

/-- Embeds `LndWalletProvider.sweepWallet`, restricted to the `lndClient.sweepWallet`
call it makes. -/
def sweepWallet (estimateFee : Int) (address : String) (satPerVbyte : Option Int)
    (label : String) : SweepWalletCall :=
  { address, feeRate := getFeePerVbyte satPerVbyte estimateFee, label }

/-! ## Concrete instances

Concrete environments and requests used to witness the `getHints` theorems
at evaluable inputs. -/

/-- An environment in which every address decodes and every signature
verifies. -/
def envAllValid : HintsEnv :=
  { schnorrVerify := fun _ _ _ => true,
    sha256utf8 := fun _ => 0,
    decodeAddressOk := fun _ _ => true,
    encodeParams := fun _ _ _ => "bip21",
    claimMinerFee := fun _ _ => 1000,
    getSwapMemo := fun _ => "memo",
    getHexString := fun _ => "02aa" }

/-- Like `envAllValid` except that no signature ever verifies. -/
def envRejectSig : HintsEnv :=
  { envAllValid with schnorrVerify := fun _ _ _ => false }

/-- A BOLT11 hint request with claim public key, user address and address
signature. -/
def bolt11Args : GetHintsArgs :=
  { memo := none,
    userAddress := some "bcrt1qaddr",
    version := 1,
    onchainAmount := 500000,
    claimPublicKey := some 2,
    descriptionHash := none,
    userAddressSignature := some 3,
    invoice := none }

/-- The BOLT11 request with no claim public key. -/
def noCpkArgs : GetHintsArgs := { bolt11Args with claimPublicKey := none }

/-- The request as BOLT12: a decoded invoice with a payee key. -/
def bolt12Args : GetHintsArgs :=
  { bolt11Args with invoice := some { description := "desc", payee := some 4 } }

/-- The request as BOLT12 with the payee key missing from the invoice. -/
def bolt12NoPayeeArgs : GetHintsArgs :=
  { bolt11Args with invoice := some { description := "desc", payee := none } }

/-- The BOLT12 request without a user address (the early-return path). -/
def bolt12NoAddrArgs : GetHintsArgs := { bolt12Args with userAddress := none }

/-- The result of `getHints envAllValid "BTC" bolt11Args`. -/
def bolt11Hints : SwapHints :=
  { invoiceMemo := some "memo",
    invoiceDescriptionHash := none,
    receivedAmount := 499000,
    bip21Params := some "bip21",
    routingHint := some [[syntheticHopHint envAllValid 2]] }

/-- The result of `getHints envAllValid "BTC" bolt12Args`. -/
def bolt12Hints : SwapHints :=
  { invoiceMemo := some "desc",
    invoiceDescriptionHash := none,
    receivedAmount := 499000,
    bip21Params := some "bip21",
    routingHint := none }

/-- The result of `getHints envRejectSig "BTC" bolt12NoAddrArgs`. -/
def bolt12NoAddrHints : SwapHints :=
  { invoiceMemo := some "desc",
    invoiceDescriptionHash := none,
    receivedAmount := 499000,
    bip21Params := none,
    routingHint := none }

/-- Invariant of the settlement retry loop: the stored counter and the
attempt count move through (none, 0), (1, 1), (2, 2), (4, 3) and stop with
at most 4 attempts. -/
def SettleInv (s : SettleState) : Prop :=
  (s = settleInit) ∨
    (s.stopped = false ∧
      ((s.retries = some 1 ∧ s.attempts = 1) ∨
        (s.retries = some 2 ∧ s.attempts = 2) ∨
        (s.retries = some 4 ∧ s.attempts = 3))) ∨
    (s.stopped = true ∧ s.attempts ≤ 4)

theorem settleStep_inv (r : Bool) (s : SettleState) (h : SettleInv s) :
    SettleInv (settleStep r s) := by
  rcases h with h | ⟨hs, h⟩ | ⟨hs, h⟩
  · subst h; cases r <;> simp [SettleInv, settleStep, settleInit]
  · obtain ⟨s1, s2, s3⟩ := s
    rcases h with ⟨hr, ha⟩ | ⟨hr, ha⟩ | ⟨hr, ha⟩ <;>
      simp_all [SettleInv, settleStep] <;> cases r <;> simp
  · have hstep : settleStep r s = s := by simp [settleStep, hs]
    rw [hstep]
    exact Or.inr (Or.inr ⟨hs, h⟩)

theorem settleRun_inv (l : List Bool) :
    ∀ s : SettleState, SettleInv s → SettleInv (l.foldl (fun s r => settleStep r s) s) := by
  induction l with
  | nil => exact fun s h => h
  | cons r t ih => exact fun s h => ih _ (settleStep_inv r s h)

/-- C1: for every non-negative integer amount `a`,
`normalizeTokenAmount (formatTokenAmount a)` is exactly `a` for 8 and 18
token decimals, and `(a / 10^(8-6)) * 10^(8-6)` for 6 decimals (truncation
at the 10^-8 reference precision); the embedding is integer arithmetic
throughout, mirroring the source's `BigInt` computation. -/
theorem formatNormalize_roundtrip (a : Nat) :
    normalizeTokenAmount 8 (formatTokenAmount 8 a) = a ∧
    normalizeTokenAmount 18 (formatTokenAmount 18 a) = a ∧
    normalizeTokenAmount 6 (formatTokenAmount 6 a) = (a / 10 ^ 2) * 10 ^ 2 := by
  refine ⟨by simp [normalizeTokenAmount, formatTokenAmount], ?_, ?_⟩
  · have h10 : absDiff8 18 = 10 := by decide
    simp [normalizeTokenAmount, formatTokenAmount, h10]
  · have h2 : absDiff8 6 = 2 := by decide
    simp [normalizeTokenAmount, formatTokenAmount, h2]

/-- C4: the settlement retry schedule: with every attempt failing, the
stored per-swap retry counter takes the values 1, 2, 4 after attempts 1, 2
and 3, after the 4th attempt it is cleared and the loop stops (a further
result changes nothing), and no run — whatever its attempt results — makes
more than 4 settlement attempts. -/
theorem settleChannelWrapper_schedule (results : List Bool) :
    (settleRun results).attempts ≤ 4 ∧
    settleRun [false] = { retries := some 1, attempts := 1, stopped := false } ∧
    settleRun [false, false] = { retries := some 2, attempts := 2, stopped := false } ∧
    settleRun [false, false, false] = { retries := some 4, attempts := 3, stopped := false } ∧
    settleRun [false, false, false, false] = { retries := none, attempts := 4, stopped := true } ∧
    settleStep false (settleRun [false, false, false, false]) =
      settleRun [false, false, false, false] := by
  refine ⟨?_, by decide, by decide, by decide, by decide, by decide⟩
  have h := settleRun_inv results settleInit (Or.inl rfl)
  rcases h with h | ⟨_, h⟩ | ⟨_, h⟩
  · rw [settleRun, h]; decide
  · rcases h with ⟨_, ha⟩ | ⟨_, ha⟩ | ⟨_, ha⟩ <;> rw [settleRun, ha] <;> omega
  · exact h

/-- C5: `openChannel` failure classification: a "wallet is fully synced" or
"Synchronizing blockchain" error only adds a retry (the orchestration of
the remaining attempts is unchanged); a "peer … is not online" error adds
one `connectByPublicKey` attempt and a retry; any other error makes exactly
that one attempt, no retry and no connection attempt, and marks the
`ChannelCreation` `Abandoned`. -/
theorem openChannel_errorClassification (e1 e2 e3 : String)
    (r1 r2 r3 : List (Option String))
    (h1 : syncError e1 = true)
    (h2s : syncError e2 = false) (h2p : peerOfflineError e2 = true)
    (h3s : syncError e3 = false) (h3p : peerOfflineError e3 = false) :
    runOpenChannel (some e1 :: r1) =
      { runOpenChannel r1 with attempts := (runOpenChannel r1).attempts + 1 } ∧
    runOpenChannel (some e2 :: r2) =
      { runOpenChannel r2 with
          attempts := (runOpenChannel r2).attempts + 1,
          connects := (runOpenChannel r2).connects + 1 } ∧
    runOpenChannel (some e3 :: r3) =
      { attempts := 1, connects := 0, abandoned := true, succeeded := false } := by
  refine ⟨?_, ?_, ?_⟩
  · simp [runOpenChannel, h1]
  · simp [runOpenChannel, h2s, h2p]
  · simp [runOpenChannel, h3s, h3p]

/-- C5 witness: the classification at the test suite's literal error
strings — the LND sync error retries (two attempts when the retry
succeeds), the remote sync error likewise, the peer-offline error connects
once and retries, and an arbitrary error abandons after one attempt. -/
theorem openChannel_errorClassification_witness :
    runOpenChannel
        (some "2 UNKNOWN: channels cannot be created before the wallet is fully synced" :: [none]) =
      { attempts := 2, connects := 0, abandoned := false, succeeded := true } ∧
    runOpenChannel
        (some "2 UNKNOWN: peer 02d4c41c75f79c52d31014f0665f327c47f92505217d9a8b75019374a6ebd04ce0 is not online" :: [none]) =
      { attempts := 2, connects := 1, abandoned := false, succeeded := true } ∧
    runOpenChannel (some "some other error" :: [none]) =
      { attempts := 1, connects := 0, abandoned := true, succeeded := false } := by
  have h := openChannel_errorClassification
    "2 UNKNOWN: channels cannot be created before the wallet is fully synced"
    "2 UNKNOWN: peer 02d4c41c75f79c52d31014f0665f327c47f92505217d9a8b75019374a6ebd04ce0 is not online"
    "some other error" [none] [none] [none]
    (by decide) (by decide) (by decide) (by decide) (by decide)
  obtain ⟨ha, hb, hc⟩ := h
  refine ⟨?_, ?_, hc⟩
  · rw [ha]; decide
  · rw [hb]; decide

/-- C6: settlement idempotency of `settleChannel`: an invoice payment error
containing "invoice is already paid" is treated as success — the call
returns `true` and marks the `ChannelCreation` `Settled` with the payment
invoked exactly once (never re-invoked) — while any other payment error
makes the call return `false` without marking `Settled`. -/
theorem settleChannel_alreadyPaid (e1 e2 : String)
    (h1 : strContains e1 "invoice is already paid" = true)
    (h2 : strContains e2 "invoice is already paid" = false) :
    settleChannel (some e1) = { returned := true, markedSettled := true, payInvocations := 1 } ∧
    settleChannel (some e2) = { returned := false, markedSettled := false, payInvocations := 1 } ∧
    settleChannel none = { returned := true, markedSettled := true, payInvocations := 1 } := by
  refine ⟨?_, ?_, rfl⟩
  · simp [settleChannel, h1]
  · simp [settleChannel, h2]

/-- C6 witness: the test suite's literal payment errors — "could not pay
invoice: invoice is already paid" settles as success, "some other error"
does not. -/
theorem settleChannel_alreadyPaid_witness :
    settleChannel (some "could not pay invoice: invoice is already paid") =
      { returned := true, markedSettled := true, payInvocations := 1 } ∧
    settleChannel (some "some other error") =
      { returned := false, markedSettled := false, payInvocations := 1 } ∧
    settleChannel none = { returned := true, markedSettled := true, payInvocations := 1 } :=
  settleChannel_alreadyPaid
    "could not pay invoice: invoice is already paid" "some other error"
    (by decide) (by decide)

/-- C7: `checkDescriptionHash` — an absent description hash is accepted; a
supplied one fails with `INVALID_DESCRIPTION_HASH` exactly when its length
is not 32 bytes, and passes the check unchanged exactly when it is 32
bytes. -/
theorem checkDescriptionHash_spec (b : List Nat) :
    checkDescriptionHash none = Except.ok none ∧
    (checkDescriptionHash (some b) = Except.error HintsError.invalidDescriptionHash ↔
      b.length ≠ 32) ∧
    (checkDescriptionHash (some b) = Except.ok (some b) ↔ b.length = 32) := by
  refine ⟨rfl, ?_, ?_⟩ <;> by_cases h : b.length = 32 <;> simp [checkDescriptionHash, h]

/-- C9: every successful `getHints` call returns
`receivedAmount = onchainAmount - claimMinerFee[sending currency, version]`. -/
theorem getHints_receivedAmount (env : HintsEnv) (symbol : String) (args : GetHintsArgs)
    (hints : SwapHints) (h : getHints env symbol args = Except.ok hints) :
    hints.receivedAmount = args.onchainAmount - env.claimMinerFee symbol args.version := by
  simp only [getHints] at h
  split at h
  · simp at h
  · split at h
    · split at h
      · split at h
        · simp at h
        · cases h; rfl
      · simp at h
    · cases h; rfl

/-- C9 witness: the concrete BOLT11 call returns
`499000 = 500000 - 1000`. -/
theorem getHints_receivedAmount_witness :
    bolt11Hints.receivedAmount =
      bolt11Args.onchainAmount - envAllValid.claimMinerFee "BTC" bolt11Args.version :=
  getHints_receivedAmount envAllValid "BTC" bolt11Args bolt11Hints rfl

/-- Every successful `getHints` call on a BOLT12 request has no routing
hint (shared inversion lemma). -/
theorem getHints_bolt12_noRoutingHint (env : HintsEnv) (symbol : String)
    (args : GetHintsArgs) (hints : SwapHints)
    (h12 : args.invoice.isSome = true)
    (hok : getHints env symbol args = Except.ok hints) :
    hints.routingHint = none := by
  obtain ⟨memo, ua, ver, amt, cpk, dh, sig, inv⟩ := args
  cases inv with
  | none => simp at h12
  | some inv =>
    cases ua with
    | none => cases hok; rfl
    | some ua =>
      cases sig with
      | none => cases hok; rfl
      | some sig =>
        simp only [getHints] at hok
        by_cases hd : env.decodeAddressOk symbol ua
        · simp only [hd, if_true] at hok
          cases hv : verifyBolt12Invoice env inv ua sig with
          | error e => simp only [hv] at hok; simp at hok
          | ok u => simp only [hv] at hok; cases hok; rfl
        · simp [hd] at hok

/-- C2: a BOLT11 hint request with a claim public key, a decodable user
address, a passing description-hash check and a valid address signature
returns exactly one synthetic routing hint, whose channel-id is the
short-channel-id packed from (block 542409, tx-index 1308, output 0) and
whose fees are `feeBaseMsat = 0`, `feeProportionalMillionths = 21`,
`cltvExpiryDelta = 81`; a successful BOLT12 request never carries a routing
hint. -/
theorem getHints_syntheticRoutingHint (env : HintsEnv) (symbol : String)
    (args args2 : GetHintsArgs) (userAddress : String) (sig cpk : Nat) (hints2 : SwapHints)
    (h11 : args.invoice = none)
    (hcpk : args.claimPublicKey = some cpk)
    (hua : args.userAddress = some userAddress)
    (hsig : args.userAddressSignature = some sig)
    (hdesc : checkDescriptionHash args.descriptionHash = Except.ok args.descriptionHash)
    (hdec : env.decodeAddressOk symbol userAddress = true)
    (hver : env.schnorrVerify cpk (env.sha256utf8 userAddress) sig = true)
    (h12 : args2.invoice.isSome = true)
    (hok2 : getHints env symbol args2 = Except.ok hints2) :
    getHints env symbol args = Except.ok
      { invoiceMemo := some (args.memo.getD (env.getSwapMemo symbol)),
        invoiceDescriptionHash := args.descriptionHash,
        receivedAmount := args.onchainAmount - env.claimMinerFee symbol args.version,
        bip21Params := some (env.encodeParams symbol
          (args.onchainAmount - env.claimMinerFee symbol args.version) args.memo),
        routingHint := some [[syntheticHopHint env cpk]] } ∧
    (syntheticHopHint env cpk).chanId = transactionToLndScid 542409 1308 0 ∧
    (syntheticHopHint env cpk).feeBaseMsat = 0 ∧
    (syntheticHopHint env cpk).feeProportionalMillionths = 21 ∧
    (syntheticHopHint env cpk).cltvExpiryDelta = 81 ∧
    hints2.routingHint = none := by
  refine ⟨?_, rfl, rfl, rfl, rfl, getHints_bolt12_noRoutingHint env symbol args2 hints2 h12 hok2⟩
  simp only [getHints, h11, hua, hsig, hdesc, hdec, if_true, encodeRoutingHint, hcpk,
    verifyAddressSignature, hver]

/-- C2 witness: the concrete BOLT11 call yields the synthetic hint with the
constant channel-id and the BOLT12 call yields no hint. -/
theorem getHints_syntheticRoutingHint_witness :
    getHints envAllValid "BTC" bolt11Args = Except.ok bolt11Hints ∧
    (syntheticHopHint envAllValid 2).chanId = transactionToLndScid 542409 1308 0 ∧
    (syntheticHopHint envAllValid 2).feeBaseMsat = 0 ∧
    (syntheticHopHint envAllValid 2).feeProportionalMillionths = 21 ∧
    (syntheticHopHint envAllValid 2).cltvExpiryDelta = 81 ∧
    bolt12Hints.routingHint = none :=
  getHints_syntheticRoutingHint envAllValid "BTC" bolt11Args bolt12Args
    "bcrt1qaddr" 3 2 bolt12Hints rfl rfl rfl rfl rfl rfl rfl rfl rfl

/-- C8: on BOLT12 hint requests with user address and signature supplied
and a decodable address, a missing payee key fails the call with
`PAYEE_MISSING_FROM_INVOICE` (verification is not skipped), an address
signature that does not verify against the payee key fails it with
`INVALID_ADDRESS_SIGNATURE`, and every successful BOLT12 call carries no
routing hint. -/
theorem getHints_bolt12Verification (env : HintsEnv) (symbol : String)
    (a1 a2 a3 : GetHintsArgs) (inv1 inv2 : DecodedInvoice)
    (u1 u2 : String) (s1 s2 p2 : Nat) (hints3 : SwapHints)
    (h1i : a1.invoice = some inv1) (h1u : a1.userAddress = some u1)
    (h1s : a1.userAddressSignature = some s1)
    (h1d : env.decodeAddressOk symbol u1 = true)
    (h1p : inv1.payee = none)
    (h2i : a2.invoice = some inv2) (h2u : a2.userAddress = some u2)
    (h2s : a2.userAddressSignature = some s2)
    (h2d : env.decodeAddressOk symbol u2 = true)
    (h2p : inv2.payee = some p2)
    (h2v : env.schnorrVerify p2 (env.sha256utf8 u2) s2 = false)
    (h3i : a3.invoice.isSome = true)
    (h3ok : getHints env symbol a3 = Except.ok hints3) :
    getHints env symbol a1 = Except.error HintsError.payeeMissingFromInvoice ∧
    getHints env symbol a2 = Except.error HintsError.invalidAddressSignature ∧
    hints3.routingHint = none := by
  refine ⟨?_, ?_, getHints_bolt12_noRoutingHint env symbol a3 hints3 h3i h3ok⟩
  · simp only [getHints, h1i, h1u, h1s, h1d, if_true, verifyBolt12Invoice, h1p]
  · simp only [getHints, h2i, h2u, h2s, h2d, if_true, verifyBolt12Invoice, h2p,
      verifyAddressSignature, h2v]
    simp

/-- C8 witness: at the concrete BOLT12 requests, the missing payee key
fails with `PAYEE_MISSING_FROM_INVOICE`, the rejected signature fails with
`INVALID_ADDRESS_SIGNATURE`, and the successful address-less call has no
routing hint. -/
theorem getHints_bolt12Verification_witness :
    getHints envRejectSig "BTC" bolt12NoPayeeArgs =
      Except.error HintsError.payeeMissingFromInvoice ∧
    getHints envRejectSig "BTC" bolt12Args =
      Except.error HintsError.invalidAddressSignature ∧
    bolt12NoAddrHints.routingHint = none :=
  getHints_bolt12Verification envRejectSig "BTC" bolt12NoPayeeArgs bolt12Args
    bolt12NoAddrArgs { description := "desc", payee := none }
    { description := "desc", payee := some 4 } "bcrt1qaddr" "bcrt1qaddr" 3 3 4
    bolt12NoAddrHints rfl rfl rfl rfl rfl rfl rfl rfl rfl rfl rfl rfl rfl

/-- C3 counterexample: at a concrete BOLT11 request that supplies a
decodable user address and an address signature but no claim public key,
and under an environment in which no Schnorr signature whatsoever is valid,
`getHints` still returns `bip21Params` — so "bip21Params is returned iff
the request carries a valid Schnorr signature by the client's claim public
key" is false on the code: with `claimPublicKey` absent nothing is
verified. -/
theorem getHints_bip21_counterexample :
    bip21Of (getHints envRejectSig "BTC" noCpkArgs) = some "bip21" ∧
    noCpkArgs.claimPublicKey = none ∧
    noCpkArgs.userAddressSignature = some 3 ∧
    envRejectSig.schnorrVerify = fun _ _ _ => false :=
  ⟨by decide, rfl, rfl, rfl⟩

/-- C3 (amended): `getHints` returns `bip21Params` iff the request supplies
both a user address that the sending currency's wallet can decode and an
address signature, any supplied BOLT11 description hash is 32 bytes, and
the signature verification performed on that path succeeds — against the
decoded invoice's payee key for BOLT12, against the claim public key for
BOLT11 when one is supplied, and with no verification at all for BOLT11
without a claim public key; otherwise `bip21Params` is absent or the call
fails. -/
theorem getHints_bip21_characterization (env : HintsEnv) (symbol : String)
    (args : GetHintsArgs) :
    (bip21Of (getHints env symbol args)).isSome = bip21Granted env symbol args := by
  obtain ⟨memo, ua, ver, amt, cpk, dh, sig, inv⟩ := args
  cases ua with
  | none =>
    cases inv <;> cases sig <;> cases dh <;>
      simp only [getHints, bip21Granted, checkDescriptionHash] <;>
      (try split) <;> simp [bip21Of]
  | some ua =>
    cases sig with
    | none =>
      cases inv <;> cases dh <;>
        simp only [getHints, bip21Granted, checkDescriptionHash] <;>
        (try split) <;> simp [bip21Of]
    | some sig =>
      cases inv with
      | some inv =>
        simp only [getHints, bip21Granted, bip21Of]
        by_cases hd : env.decodeAddressOk symbol ua
        · simp only [hd, if_true]
          cases hp : inv.payee with
          | none => simp [verifyBolt12Invoice, hp, bip21Of]
          | some p =>
            by_cases hv : verifyAddressSignature env p ua sig
            · simp [verifyBolt12Invoice, hp, hv, bip21Of]
            · simp [verifyBolt12Invoice, hp, hv, bip21Of]
        · simp [hd, bip21Of]
      | none =>
        simp only [getHints, bip21Granted, bip21Of]
        cases dh with
        | some b =>
          by_cases hl : b.length = 32
          · simp only [checkDescriptionHash, hl]
            by_cases hd : env.decodeAddressOk symbol ua
            · simp only [hd, if_true]
              cases cpk with
              | none => simp [encodeRoutingHint, bip21Of, hl, hd]
              | some cpk =>
                by_cases hv : verifyAddressSignature env cpk ua sig
                · simp [encodeRoutingHint, hv, bip21Of, hl, hd]
                · simp [encodeRoutingHint, hv, bip21Of, hl, hd]
            · simp [hd, bip21Of, hl]
          · simp [checkDescriptionHash, hl, bip21Of]
        | none =>
          simp only [checkDescriptionHash]
          by_cases hd : env.decodeAddressOk symbol ua
          · simp only [hd, if_true]
            cases cpk with
            | none => simp [encodeRoutingHint, bip21Of, hd]
            | some cpk =>
              by_cases hv : verifyAddressSignature env cpk ua sig
              · simp [encodeRoutingHint, hv, bip21Of, hd]
              · simp [encodeRoutingHint, hv, bip21Of, hd]
          · simp [hd, bip21Of]

/-- C10: the fee rate `sendToAddress` and `sweepWallet` pass to LND is the
chain client's `estimateFee()` when `satPerVbyte` is `undefined` or `0`,
and `satPerVbyte` unchanged when it is any non-zero number. -/
theorem lndFeePerVbyte_selection (est amount v : Int) (address label : String)
    (hv : v ≠ 0) :
    (sendToAddress est address amount none label).feeRate = est ∧
    (sendToAddress est address amount (some 0) label).feeRate = est ∧
    (sendToAddress est address amount (some v) label).feeRate = v ∧
    (sweepWallet est address none label).feeRate = est ∧
    (sweepWallet est address (some 0) label).feeRate = est ∧
    (sweepWallet est address (some v) label).feeRate = v := by
  refine ⟨rfl, rfl, ?_, rfl, rfl, ?_⟩ <;>
    simp [sendToAddress, sweepWallet, getFeePerVbyte, hv]

/-- C10 witness: with an estimate of 3 sat/vbyte, `undefined` and `0`
fall back to 3, while 21 is used unchanged. -/
theorem lndFeePerVbyte_selection_witness :
    (sendToAddress 3 "addr" 100 none "lbl").feeRate = 3 ∧
    (sendToAddress 3 "addr" 100 (some 0) "lbl").feeRate = 3 ∧
    (sendToAddress 3 "addr" 100 (some 21) "lbl").feeRate = 21 ∧
    (sweepWallet 3 "addr" none "lbl").feeRate = 3 ∧
    (sweepWallet 3 "addr" (some 0) "lbl").feeRate = 3 ∧
    (sweepWallet 3 "addr" (some 21) "lbl").feeRate = 21 :=
  lndFeePerVbyte_selection 3 100 21 "addr" "lbl" (by decide)
